import Mathlib

/-!
Verification development for the download-capture tool of this repository
(`src/tools/browser/download.ts`, class `DownloadTool`), against the
natural-language specification.

The TypeScript code is shallowly embedded: each external collaborator call
(page actions, the download-event wait, filesystem calls, the notification
sink) is resolved through an explicit environment `Env` describing the
outcome of that call, and every observable side effect is recorded in an
event trace.  The in-memory download registry is threaded explicitly.
Machine floating point in `formatBytes` is replaced by exact natural/rational
arithmetic that agrees with the source on all inputs the claims touch.
-/

namespace DownloadTool

/-- A JavaScript value passed as `args.trigger`: a string, an object with
optional `type`/`selector`/`script`/`keys` fields, or some other value
(modelled by a number, as in the tests of the repository). -/
inductive TriggerVal where
  | str (s : String)
  | obj (otype selector script keys : Option String)
  | num (n : Int)
deriving DecidableEq

/-- The request shape accepted by `execute` (`args` in the source); absent
JS fields are `none`. -/
structure Args where
  name : Option String
  trigger : Option TriggerVal
  timeout : Option Nat
  downloadsDir : Option String

/-- Browser `Download` handle: `suggestedFilename()` (empty string when
the browser provides none) and `url()`. -/
structure DownloadHandle where
  suggestedFilename : String
  url : String
deriving DecidableEq

/-- Outcomes of the external collaborator calls made by one invocation of
`execute`: page presence, `os.homedir()`, `process.cwd()`,
`fs.existsSync(downloadsDir)`, the dispatched page action
(click/evaluate/keyboard press), `page.waitForEvent("download")`,
`download.saveAs`, `fs.statSync` (byte size), and the two
`new Date().toISOString()` reads. -/
structure Env where
  hasPage : Bool
  homedir : String
  cwd : String
  dirExists : Bool
  triggerResult : Except String Unit
  waitResult : Except String DownloadHandle
  saveResult : Except String Unit
  statResult : Except String Nat
  now1 : String
  now2 : String

/-- Observable side effects of one invocation, in the order the source
performs them. -/
inductive Event where
  | waitRegistered (timeout : Nat)
  | click (selector : String)
  | evaluate (script : String)
  | keypress (keys : String)
  | mkdir (dir : String)
  | saveAs (path : String)
  | statF (path : String)
  | registrySet (name : String)
  | notify
deriving DecidableEq

/-- Record stored in the registry (interface `DownloadInfo`
in the source). -/
structure DownloadInfo where
  name : String
  originalFilename : String
  savePath : String
  timestamp : String
  size : Option Nat
  url : Option String
deriving DecidableEq

/-- The in-memory registry `downloads: Map<string, DownloadInfo>`, modelled
as an association list whose `set` removes the old binding. -/
abbrev Registry := List (String × DownloadInfo)

/-- Model of `Map.prototype.set` (get semantics: new binding shadows old). -/
def mapSet (m : Registry) (k : String) (v : DownloadInfo) : Registry :=
  (k, v) :: m.filter (fun p => p.1 != k)

/-- Model of `Map.prototype.get`. -/
def mapGet (m : Registry) (k : String) : Option DownloadInfo :=
  (m.find? (fun p => p.1 == k)).map (fun p => p.2)

/-- Modelled from the spec: the response shape produced by the helpers in
`src/tools/common/types.ts`, which is not included under `src/`.  Per spec
§6, a response is `{ isError, content: [{text}, ...] }`. -/
structure ToolResponse where
  isError : Bool
  content : List String
deriving DecidableEq

/-- Modelled from the spec: `createErrorResponse` from
`src/tools/common/types.ts` (missing from `src/`); error responses carry
exactly one text entry (spec §6). -/
def createErrorResponse (m : String) : ToolResponse :=
  { isError := true, content := [m] }

/-- Modelled from the spec: `createSuccessResponse` from
`src/tools/common/types.ts` (missing from `src/`); success responses carry
the given text entries (spec §6, §4.1 step 11). -/
def createSuccessResponse (ms : List String) : ToolResponse :=
  { isError := false, content := ms }

/-- JS truthiness of an optional string field (`undefined` and `""` are
falsy). -/
def truthyStr : Option String → Bool
  | none => false
  | some s => !(s == "")

/-- JS truthiness of `args.trigger` (`undefined`, `""` and `0` are falsy;
objects are always truthy). -/
def truthyTrigger : Option TriggerVal → Bool
  | none => false
  | some (.str s) => !(s == "")
  | some (.num n) => !(n == 0)
  | some (.obj _ _ _ _) => true

/-- Evaluation of `args.timeout || 30000` (JS: a zero timeout is falsy and falls back to
the default). -/
def effTimeout : Option Nat → Nat
  | none => 30000
  | some t => if t == 0 then 30000 else t

/-- Model of `path.join`, as plain separator concatenation (the claims treat
paths opaquely; the node normalization is irrelevant to them). -/
def pathJoin (a b : String) : String := a ++ "/" ++ b

/-- Model of `path.relative(process.cwd(), savePath)`, returning the path
unchanged: no claim depends on the relative-path computation, only on which
message lines exist. -/
def pathRelative (cwd p : String) : String := p

/-- Evaluation of `args.downloadsDir || defaultDownloadsPath` where `defaultDownloadsPath`
is `path.join(os.homedir(), "Downloads")`. -/
def effDir (env : Env) : Option String → String
  | none => pathJoin env.homedir "Downloads"
  | some d => if d == "" then pathJoin env.homedir "Downloads" else d

/-- A single-quote character, for the success message. -/
def sq : String := String.singleton (Char.ofNat 39)

/-- Rendering of a string as a JSON string literal (inner escaping is not
modelled; only the surrounding message text matters to the claims). -/
def jsonStr (s : String) : String := "\x22" ++ s ++ "\x22"

/-- Rendering of `JSON.stringify` on a trigger value, as used in the two `throw`
messages of `executeTrigger`. -/
def jsonStringifyTrigger : TriggerVal → String
  | .str s => jsonStr s
  | .num n => toString n
  | .obj ty sel scr keys =>
    let fields :=
      (match ty with | some v => [jsonStr "type" ++ ":" ++ jsonStr v] | none => []) ++
      (match sel with | some v => [jsonStr "selector" ++ ":" ++ jsonStr v] | none => []) ++
      (match scr with | some v => [jsonStr "script" ++ ":" ++ jsonStr v] | none => []) ++
      (match keys with | some v => [jsonStr "keys" ++ ":" ++ jsonStr v] | none => [])
    "\x7b" ++ String.intercalate "," fields ++ "\x7d"

/-- Char-level `replace(/[:.]/g, '-')`. -/
def sanitizeChar (c : Char) : Char :=
  if c = ':' ∨ c = '.' then '-' else c

/-- The transform `toISOString().replace(...)` of the source (colon and period
become `-`) applied to an already-read ISO
string. -/
def sanitizeTs (s : String) : String := String.mk (s.data.map sanitizeChar)

/-- The constructed save filename
`` `${downloadName}-${timestamp}-${suggestedFilename}` `` (the timestamp
argument is already sanitized). -/
def mkFilename (n ts s : String) : String :=
  n ++ ("-" ++ (ts ++ ("-" ++ s)))

/-- List-level prefix test (used to embed `String.prototype.includes`). -/
def isPfxOf : List Char → List Char → Bool
  | [], _ => true
  | _ :: _, [] => false
  | a :: as, b :: bs => a == b && isPfxOf as bs

/-- List-level contiguous-substring test. -/
def isSubOf (sub : List Char) : List Char → Bool
  | [] => isPfxOf sub []
  | b :: bs => isPfxOf sub (b :: bs) || isSubOf sub bs

/-- JavaScript `s.includes(sub)` (case-sensitive substring test). -/
def containsStr (s sub : String) : Bool := isSubOf sub.data s.data

/-- Floor logarithm, fuel-based (`Math.floor(Math.log(bytes)/Math.log(k))`
for the integer inputs reached by the source; exact for every `bytes ≥ 1`). -/
def logKgo (k : Nat) : Nat → Nat → Nat
  | 0, _ => 0
  | fuel + 1, m => if k ≤ m then logKgo k fuel (m / k) + 1 else 0

/-- Embedding of `formatBytes`, with the floating-point pipeline
(`toFixed(2)` then `parseFloat`) replaced by exact arithmetic: the value is
rounded to a whole number of hundredths (ties up, as `toFixed` does) and
rendered with trailing zeros dropped, as `parseFloat` concatenation does. -/
def formatBytes (bytes : Nat) : String :=
  if bytes == 0 then "0 Bytes"
  else
    let k := 1024
    let sizes := ["Bytes", "KB", "MB", "GB"]
    let i := logKgo k bytes bytes
    let d := k ^ i
    let hundredths := (bytes * 100 * 2 + d) / (2 * d)
    let ip := hundredths / 100
    let fr := hundredths % 100
    let numStr :=
      if fr == 0 then toString ip
      else if fr % 10 == 0 then toString ip ++ "." ++ toString (fr / 10)
      else if fr < 10 then toString ip ++ ".0" ++ toString fr
      else toString ip ++ "." ++ toString fr
    numStr ++ " " ++ sizes.getD i "undefined"

/-- The message of the error thrown by `page.waitForEvent` when the wait
exceeds its timeout (the Playwright `TimeoutError`:
`Timeout <t>ms exceeded while waiting for event "download"`). -/
def pwTimeoutMsg (t : Nat) : String :=
  "Timeout " ++ (toString t ++ ("ms exceeded while waiting for event " ++ jsonStr "download"))

/-- Distinguished timeout error text of the tool (source line 111). -/
def downloadTimeoutMsg (timeout : Nat) : String :=
  "Download timeout after " ++ (toString timeout ++ "ms. No download was triggered or completed within the specified time.")

/-- The `catch` block of `execute` (source lines 107-115): an error whose
message includes the substring `Timeout` becomes the download-timeout
response; every other error becomes `Download failed: <message>`. -/
def catchResponse (timeout : Nat) (m : String) : ToolResponse :=
  if containsStr m "Timeout" then createErrorResponse (downloadTimeoutMsg timeout)
  else createErrorResponse ("Download failed: " ++ m)

/-- Embedding of `executeTrigger` (source lines 122-139): returns the page-action events
dispatched and either the outcome of the action or the thrown shape error. -/
def executeTrigger (env : Env) (t : TriggerVal) : List Event × Except String Unit :=
  match t with
  | .str s => ([Event.click s], env.triggerResult)
  | .obj ty sel scr keys =>
    if ty == some "click" && truthyStr sel then
      ([Event.click (sel.getD "")], env.triggerResult)
    else if ty == some "evaluate" && truthyStr scr then
      ([Event.evaluate (scr.getD "")], env.triggerResult)
    else if ty == some "keyboard" && truthyStr keys then
      ([Event.keypress (keys.getD "")], env.triggerResult)
    else
      ([], Except.error ("Unsupported trigger type: " ++ jsonStringifyTrigger (.obj ty sel scr keys)))
  | .num n => ([], Except.error ("Invalid trigger parameter: " ++ toString n))

/-- Whether a trigger value has one of the shapes `executeTrigger` accepts
without throwing. -/
def triggerShapeOk : TriggerVal → Bool
  | .str _ => true
  | .obj ty sel scr keys =>
    (ty == some "click" && truthyStr sel) ||
    (ty == some "evaluate" && truthyStr scr) ||
    (ty == some "keyboard" && truthyStr keys)
  | .num _ => false

/-- The body of the `try` block after the `waitForEvent` promise is created
(source lines 56-105), together with the `catch` conversion: trigger
dispatch, the event wait, filename construction, `saveAs`, the best-effort
stat, the registry insertion, the notification, and the success messages. -/
def tryBody (env : Env) (timeout : Nat) (downloadsDir downloadName : String)
    (t : TriggerVal) (downloads : Registry) : List Event × Registry × ToolResponse :=
  match executeTrigger env t with
  | (trigEvs, Except.error m) => (trigEvs, downloads, catchResponse timeout m)
  | (trigEvs, Except.ok _) =>
    match env.waitResult with
    | Except.error m => (trigEvs, downloads, catchResponse timeout m)
    | Except.ok download =>
      let suggestedFilename :=
        if download.suggestedFilename == "" then "downloaded-file" else download.suggestedFilename
      let filename := mkFilename downloadName (sanitizeTs env.now1) suggestedFilename
      let savePath := pathJoin downloadsDir filename
      match env.saveResult with
      | Except.error m =>
        (trigEvs ++ [Event.saveAs savePath], downloads, catchResponse timeout m)
      | Except.ok _ =>
        let info0 : DownloadInfo :=
          { name := downloadName, originalFilename := suggestedFilename,
            savePath := savePath, timestamp := env.now2, size := none,
            url := some download.url }
        let info := match env.statResult with
          | Except.ok sz => { info0 with size := some sz }
          | Except.error _ => info0
        let base :=
          [ "Download completed successfully",
            "File saved to: " ++ pathRelative env.cwd savePath,
            "Original filename: " ++ suggestedFilename,
            "Download stored in memory with name: " ++ (sq ++ downloadName ++ sq) ]
        let messages := match info.size with
          | some sz => if sz != 0 then base ++ ["File size: " ++ formatBytes sz] else base
          | none => base
        (trigEvs ++ [Event.saveAs savePath, Event.statF savePath,
           Event.registrySet downloadName, Event.notify],
         mapSet downloads downloadName info,
         createSuccessResponse messages)

/-- The body passed to `safeExecute` (source lines 33-115): parameter
validation, directory creation, listener registration, then `tryBody`. -/
def executeInner (env : Env) (args : Args) (downloads : Registry) :
    List Event × Registry × ToolResponse :=
  if truthyStr args.name then
    if truthyTrigger args.trigger then
      let timeout := effTimeout args.timeout
      let downloadsDir := effDir env args.downloadsDir
      let downloadName := args.name.getD ""
      let dirEvs := if env.dirExists then [] else [Event.mkdir downloadsDir]
      let body := tryBody env timeout downloadsDir downloadName (args.trigger.getD (.num 0)) downloads
      (dirEvs ++ Event.waitRegistered timeout :: body.1, body.2.1, body.2.2)
    else ([], downloads, createErrorResponse "Missing required parameter: trigger")
  else ([], downloads, createErrorResponse "Missing required parameter: name")

/-- Embedding of `DownloadTool.execute`.  The wrapping `safeExecute` is modelled from the
spec: `BrowserToolBase.safeExecute` lives in `src/tools/browser/base.ts`,
which is not included under `src/`; per spec §4.1 precondition 1 and §7 it
returns the error `Browser page not initialized` when the context has no
active page (before any other action) and otherwise runs the body, catching
any failure at the component boundary. -/
def execute (env : Env) (args : Args) (downloads : Registry) :
    List Event × Registry × ToolResponse :=
  if env.hasPage then executeInner env args downloads
  else ([], downloads, createErrorResponse "Browser page not initialized")

/-- Accessor `getDownload(name)`. -/
def getDownload (downloads : Registry) (n : String) : Option DownloadInfo :=
  mapGet downloads n

/-- Accessor `getDownloads()`. -/
def getDownloads (downloads : Registry) : Registry := downloads

/-- Result of `clearDownloads()` (the registry value after clearing). -/
def clearDownloads : Registry := []

/-- Returns `true` iff the event is one of the trigger page actions
(click / evaluate / keyboard press). -/
def isTriggerEvent : Event → Bool
  | .click _ => true
  | .evaluate _ => true
  | .keypress _ => true
  | _ => false

/-- Returns `true` iff the event is the registration of the download-event
listener. -/
def isWaitRegistered : Event → Bool
  | .waitRegistered _ => true
  | _ => false

/-- Scans a trace: `true` iff no trigger page action occurs before the
first registration of the download-event listener. -/
def listenerArmedFirst : List Event → Bool
  | [] => true
  | e :: es =>
    if isTriggerEvent e then false
    else if isWaitRegistered e then true
    else listenerArmedFirst es

/-- A character-class template entry: a decimal digit, or a fixed literal
character. -/
inductive CharClass where
  | digit
  | lit (c : Char)

/-- Whether a character matches a template entry. -/
def matchesClass : CharClass → Char → Bool
  | .digit, c => c.isDigit
  | .lit a, c => c == a

/-- Whether a character list matches a template exactly. -/
def matchesShape : List CharClass → List Char → Bool
  | [], [] => true
  | cl :: cls, c :: cs => matchesClass cl c && matchesShape cls cs
  | _, _ => false

/-- The fixed 24-character shape of `Date.prototype.toISOString` output:
`YYYY-MM-DDTHH:MM:SS.mmmZ`. -/
def isoShape : List CharClass :=
  [.digit, .digit, .digit, .digit, .lit '-', .digit, .digit, .lit '-',
   .digit, .digit, .lit 'T', .digit, .digit, .lit ':', .digit, .digit,
   .lit ':', .digit, .digit, .lit '.', .digit, .digit, .digit, .lit 'Z']

/-- Whether a string is a well-formed `toISOString` timestamp. -/
def IsIsoTimestamp (s : String) : Bool := matchesShape isoShape s.data

/-- Positional lookup in a character list (used to separate message
families lexically). -/
def nthC : List Char → Nat → Option Char
  | [], _ => none
  | a :: _, 0 => some a
  | _ :: as, n + 1 => nthC as n

/-- An environment in which every external call succeeds (mirrors the
test fixture of the repository: suggested filename `test-file.pdf`, URL
`https://example.com/file.pdf`, size 1024, clock frozen at
`2023-01-01T12:00:00.000Z`). -/
def envOk : Env :=
  { hasPage := true, homedir := "/home/u", cwd := "/w", dirExists := true,
    triggerResult := .ok (), waitResult := .ok ⟨"test-file.pdf", "https://example.com/file.pdf"⟩,
    saveResult := .ok (), statResult := .ok 1024,
    now1 := "2023-01-01T12:00:00.000Z", now2 := "2023-01-01T12:00:00.000Z" }

/-- Variant of `envOk` with a missing downloads directory. -/
def envNoDir : Env := { envOk with dirExists := false }

/-- Variant of `envOk` whose download-event wait times out at the default timeout. -/
def envWaitTO : Env := { envOk with waitResult := .error (pwTimeoutMsg 30000) }

/-- Variant of `envOk` whose trigger click itself fails with a Playwright timeout
(e.g. the selector never became actionable); the download event would have
arrived. -/
def envClickTO : Env := { envOk with triggerResult := .error "Timeout 1000ms exceeded" }

/-- Variant of `envOk` whose trigger click fails with a non-timeout error. -/
def envBoom : Env := { envOk with triggerResult := .error "boom" }

/-- Variant of `envOk` whose `fs.statSync` call fails. -/
def envStatFail : Env := { envOk with statResult := .error "File not found" }

/-- Variant of `envOk` whose saved file stats as zero bytes. -/
def envZeroSize : Env := { envOk with statResult := .ok 0 }

/-- A well-formed request with a string (selector) trigger. -/
def argsOk : Args :=
  { name := some "test-download", trigger := some (.str "#download-button"),
    timeout := none, downloadsDir := some "/dl" }

/-- A request whose trigger is a number (neither string nor object). -/
def argsNumTrigger : Args :=
  { name := some "dl", trigger := some (.num 123), timeout := none, downloadsDir := some "/dl" }

/-- A request with no name. -/
def argsNoName : Args :=
  { name := none, trigger := some (.str "#b"), timeout := none, downloadsDir := some "/dl" }

/-- A request with a name but no trigger. -/
def argsNoTrigger : Args :=
  { name := some "dl", trigger := none, timeout := none, downloadsDir := some "/dl" }

end DownloadTool

namespace DownloadTool

/-! ### Helper lemmas -/

lemma armedFirst_shape (b : Bool) (d : String) (t : Nat) (rest : List Event) :
    listenerArmedFirst ((if b then [] else [Event.mkdir d]) ++ Event.waitRegistered t :: rest) = true := by
  cases b <;> rfl

lemma executeTrigger_of_shape_false (env : Env) (t : TriggerVal)
    (h : triggerShapeOk t = false) :
    ∃ m, executeTrigger env t = ([], Except.error m) := by
  cases t with
  | str s => simp [triggerShapeOk] at h
  | num n => exact ⟨_, rfl⟩
  | obj ty sel scr keys =>
    simp only [triggerShapeOk, Bool.or_eq_false_iff] at h
    obtain ⟨⟨h1, h2⟩, h3⟩ := h
    exact ⟨"Unsupported trigger type: " ++ jsonStringifyTrigger (.obj ty sel scr keys),
      by simp [executeTrigger, h1, h2, h3]⟩

/-! ### Claims -/

/-- C1: in every execution of `execute` that reaches the trigger step, the
download-event listener is registered strictly before the trigger action
(click, evaluate, or keyboard press) is performed; no execution dispatches a
trigger action while no listener is armed. -/
theorem C1_listener_armed_before_trigger (env : Env) (args : Args) (dl : Registry) :
    listenerArmedFirst (execute env args dl).1 = true := by
  unfold execute executeInner
  cases hp : env.hasPage with
  | false => rfl
  | true =>
    simp only [if_true]
    cases hn : truthyStr args.name with
    | false => simp [hn, listenerArmedFirst]
    | true =>
      cases ht : truthyTrigger args.trigger with
      | false => simp [hn, ht, listenerArmedFirst]
      | true => simpa using armedFirst_shape env.dirExists _ _ _

/-- C7: with a page present, a request with missing or empty `name` yields
exactly the error `Missing required parameter: name` with no events and the
registry unchanged; a request with a `name` but missing `trigger` yields
`Missing required parameter: trigger`; the name check comes first. -/
theorem C7_missing_name_then_trigger (env : Env) (args : Args) (dl : Registry)
    (hp : env.hasPage = true) :
    (truthyStr args.name = false →
      execute env args dl = ([], dl, createErrorResponse "Missing required parameter: name"))
    ∧ (truthyStr args.name = true → truthyTrigger args.trigger = false →
      execute env args dl = ([], dl, createErrorResponse "Missing required parameter: trigger")) := by
  constructor
  · intro hn; simp [execute, executeInner, hp, hn]
  · intro hn ht; simp [execute, executeInner, hp, hn, ht]

/-- Witness for C7 at concrete inputs. -/
theorem C7_witness :
    execute envOk argsNoName [] = ([], [], createErrorResponse "Missing required parameter: name")
    ∧ execute envOk argsNoTrigger [] = ([], [], createErrorResponse "Missing required parameter: trigger") :=
  ⟨(C7_missing_name_then_trigger envOk argsNoName [] rfl).1 rfl,
   (C7_missing_name_then_trigger envOk argsNoTrigger [] rfl).2 rfl rfl⟩

/-- C2 counterexample: a request whose trigger is neither string nor object
(the number 123) is rejected, yet the downloads directory was already
created on this error path — the validation error is *not* detected before
every side effect. -/
theorem C2_counterexample :
    (execute { envNoDir with waitResult := .ok ⟨"f.pdf", "https://x/f.pdf"⟩ } argsNumTrigger []).2.2 =
      createErrorResponse "Download failed: Invalid trigger parameter: 123"
    ∧ Event.mkdir "/dl" ∈
      (execute { envNoDir with waitResult := .ok ⟨"f.pdf", "https://x/f.pdf"⟩ } argsNumTrigger []).1 := by
  decide

/-- C2 (amended): missing-page, missing/empty-name and missing-trigger
errors are detected before any side effect (empty trace, registry
unchanged); for a trigger of invalid shape (neither string nor object, or
an object with unrecognized type or missing payload) no registry mutation
and no trigger dispatch occur, but the downloads-directory creation (and
the listener registration) may already have happened before the error. -/
theorem C2_amended_validation_side_effects (env : Env) (args : Args) (dl : Registry) :
    (env.hasPage = false →
      execute env args dl = ([], dl, createErrorResponse "Browser page not initialized"))
    ∧ (env.hasPage = true → truthyStr args.name = false →
      execute env args dl = ([], dl, createErrorResponse "Missing required parameter: name"))
    ∧ (env.hasPage = true → truthyStr args.name = true → truthyTrigger args.trigger = false →
      execute env args dl = ([], dl, createErrorResponse "Missing required parameter: trigger"))
    ∧ (∀ t, args.trigger = some t → triggerShapeOk t = false →
      (execute env args dl).2.1 = dl ∧
      ∀ e ∈ (execute env args dl).1, isTriggerEvent e = false) := by
  refine ⟨fun hp => by simp [execute, hp], fun hp hn => by simp [execute, executeInner, hp, hn],
    fun hp hn ht => by simp [execute, executeInner, hp, hn, ht], fun t htr hshape => ?_⟩
  cases hp : env.hasPage with
  | false => simp [execute, hp]
  | true =>
    cases hn : truthyStr args.name with
    | false => simp [execute, executeInner, hp, hn]
    | true =>
      cases ht : truthyTrigger args.trigger with
      | false => simp [execute, executeInner, hp, hn, ht]
      | true =>
        obtain ⟨m, hm⟩ := executeTrigger_of_shape_false env t hshape
        have htr' : args.trigger.getD (.num 0) = t := by simp [htr]
        constructor
        · simp [execute, executeInner, hp, hn, ht, tryBody, htr', hm]
        · simp only [execute, executeInner, hp, hn, ht, tryBody, htr', hm, if_true]
          cases env.dirExists <;> simp [isTriggerEvent]

/-- Witness for C2 (amended) at a concrete input: the invalid-shape path
leaves the registry unchanged. -/
theorem C2_amended_witness :
    (execute { envNoDir with waitResult := .ok ⟨"f.pdf", "https://x/f.pdf"⟩ } argsNumTrigger []).2.1 = [] :=
  ((C2_amended_validation_side_effects _ argsNumTrigger []).2.2.2 (.num 123) rfl rfl).1

/-! ### Catch-block lemmas -/

lemma isPfxOf_append (p rest : List Char) : isPfxOf p (p ++ rest) = true := by
  induction p with
  | nil => rfl
  | cons a as ih => simp [isPfxOf, ih]

lemma isSubOf_of_pfx (sub l : List Char) (h : isPfxOf sub l = true) :
    isSubOf sub l = true := by
  cases l with
  | nil => simpa [isSubOf] using h
  | cons b bs => simp [isSubOf, h]

lemma containsStr_pw (t : Nat) : containsStr (pwTimeoutMsg t) "Timeout" = true := by
  unfold containsStr pwTimeoutMsg
  rw [String.data_append]
  have h : ("Timeout " : String).data = ("Timeout" : String).data ++ [' '] := by decide
  rw [h, List.append_assoc]
  exact isSubOf_of_pfx _ _ (isPfxOf_append _ _)

lemma catchResponse_isError (t : Nat) (m : String) :
    (catchResponse t m).isError = true := by
  unfold catchResponse
  split <;> rfl

lemma nthC_append (l r : List Char) (n : Nat) (h : n < l.length) :
    nthC (l ++ r) n = nthC l n := by
  induction l generalizing n with
  | nil => simp at h
  | cons a as ih =>
    cases n with
    | zero => rfl
    | succ k => simpa [nthC] using ih k (by simpa using h)

lemma failed_ne_timeout (t : Nat) (m : String) :
    ("Download failed: " ++ m) ≠ downloadTimeoutMsg t := by
  intro heq
  have hd := congrArg String.data heq
  unfold downloadTimeoutMsg at hd
  rw [String.data_append, String.data_append] at hd
  have h9 := congrArg (fun l => nthC l 9) hd
  simp only at h9
  rw [nthC_append _ _ 9 (by decide), nthC_append _ _ 9 (by decide)] at h9
  exact absurd h9 (by decide)

lemma nthC_timeout_head (t : Nat) : nthC (downloadTimeoutMsg t).data 0 = some 'D' := by
  unfold downloadTimeoutMsg
  rw [String.data_append]
  rw [nthC_append _ _ 0 (by decide)]
  decide

lemma timeout_ne_of_head (t : Nat) (s : String) (hs : nthC s.data 0 ≠ some 'D') :
    downloadTimeoutMsg t ≠ s := by
  intro heq
  exact hs (heq ▸ nthC_timeout_head t)

/-- Control-flow lemma: any error raised inside the `try` block — the
trigger dispatch (including its shape validation), the download-event wait,
or the save — is converted by the `catch` block via `catchResponse`. -/
lemma execute_catch (env : Env) (args : Args) (dl : Registry) (t : TriggerVal) (m : String)
    (hp : env.hasPage = true) (hn : truthyStr args.name = true)
    (htr : args.trigger = some t) (ht : truthyTrigger args.trigger = true)
    (hfail : (executeTrigger env t).2 = Except.error m
      ∨ ((executeTrigger env t).2 = Except.ok () ∧ env.waitResult = Except.error m)
      ∨ ((executeTrigger env t).2 = Except.ok () ∧ (∃ h, env.waitResult = Except.ok h)
          ∧ env.saveResult = Except.error m)) :
    (execute env args dl).2.2 = catchResponse (effTimeout args.timeout) m := by
  have htr' : args.trigger.getD (.num 0) = t := by simp [htr]
  cases hE : executeTrigger env t with
  | mk evs res =>
    rcases hfail with h1 | ⟨h1, h2⟩ | ⟨h1, ⟨hdl, h2⟩, h3⟩ <;> rw [hE] at h1 <;> simp only at h1 <;>
      subst h1
    · simp [execute, executeInner, hp, hn, ht, htr', tryBody, hE]
    · simp [execute, executeInner, hp, hn, ht, htr', tryBody, hE, h2]
    · simp [execute, executeInner, hp, hn, ht, htr', tryBody, hE, h2, h3]

/-- C9 (implicit): the timeout error is selected by substring matching, not
by event source — for every error raised after validation (during trigger
dispatch, the event wait, or saving) whose message contains `Timeout`,
`execute` returns the download-timeout message; every other such error
yields `Download failed: <message>`. -/
theorem C9_timeout_selected_by_substring (env : Env) (args : Args) (dl : Registry)
    (t : TriggerVal) (m : String)
    (hp : env.hasPage = true) (hn : truthyStr args.name = true)
    (htr : args.trigger = some t) (ht : truthyTrigger args.trigger = true)
    (hfail : (executeTrigger env t).2 = Except.error m
      ∨ ((executeTrigger env t).2 = Except.ok () ∧ env.waitResult = Except.error m)
      ∨ ((executeTrigger env t).2 = Except.ok () ∧ (∃ h, env.waitResult = Except.ok h)
          ∧ env.saveResult = Except.error m)) :
    (execute env args dl).2.2 =
      if containsStr m "Timeout" then
        createErrorResponse (downloadTimeoutMsg (effTimeout args.timeout))
      else createErrorResponse ("Download failed: " ++ m) := by
  rw [execute_catch env args dl t m hp hn htr ht hfail]; rfl

/-- Witness for C9: a non-timeout dispatch failure is wrapped as
`Download failed: <message>`. -/
theorem C9_witness :
    (execute envBoom argsOk []).2.2 = createErrorResponse "Download failed: boom" := by
  have h := C9_timeout_selected_by_substring envBoom argsOk [] (.str "#download-button") "boom"
    rfl rfl rfl rfl (Or.inl rfl)
  rw [h]; decide

/-- C3 counterexample: the download-timeout message is *not* lexically
distinct from every trigger-dispatch-failure response — a click that itself
fails with a Playwright timeout (`envClickTO`, where the download event
would have arrived) produces the very same response text as a genuine
download-event timeout (`envWaitTO`). -/
theorem C3_counterexample :
    (execute envWaitTO argsOk []).2.2 = createErrorResponse (downloadTimeoutMsg 30000)
    ∧ (execute envClickTO argsOk []).2.2 = (execute envWaitTO argsOk []).2.2 := by
  decide

/-- C3 (amended): when the download-event wait exceeds the configured
timeout, `execute` returns exactly the error
`Download timeout after <timeout>ms. ...` with the timeout value used
(the caller-supplied value when truthy, 30000 otherwise); this message is
lexically distinct from every validation-failure response and from every
trigger-dispatch-failure response whose raised message does not contain
`Timeout`. -/
theorem C3_amended_timeout_message (env : Env) (args : Args) (dl : Registry) (t : TriggerVal)
    (hp : env.hasPage = true) (hn : truthyStr args.name = true)
    (htr : args.trigger = some t) (ht : truthyTrigger args.trigger = true)
    (hdisp : (executeTrigger env t).2 = Except.ok ())
    (hwait : env.waitResult = Except.error (pwTimeoutMsg (effTimeout args.timeout))) :
    (execute env args dl).2.2 = createErrorResponse (downloadTimeoutMsg (effTimeout args.timeout))
    ∧ (∀ m, containsStr m "Timeout" = false →
        catchResponse (effTimeout args.timeout) m ≠
          createErrorResponse (downloadTimeoutMsg (effTimeout args.timeout)))
    ∧ downloadTimeoutMsg (effTimeout args.timeout) ≠ "Missing required parameter: name"
    ∧ downloadTimeoutMsg (effTimeout args.timeout) ≠ "Missing required parameter: trigger"
    ∧ downloadTimeoutMsg (effTimeout args.timeout) ≠ "Browser page not initialized" := by
  refine ⟨?_, ?_, timeout_ne_of_head _ _ (by decide), timeout_ne_of_head _ _ (by decide),
    timeout_ne_of_head _ _ (by decide)⟩
  · rw [execute_catch env args dl t _ hp hn htr ht (Or.inr (Or.inl ⟨hdisp, hwait⟩))]
    simp [catchResponse, containsStr_pw]
  · intro m hm heq
    simp only [catchResponse, hm, if_false, createErrorResponse, ToolResponse.mk.injEq,
      List.cons.injEq, and_true, true_and, Bool.false_eq_true] at heq
    exact failed_ne_timeout _ m heq

/-- Witness for C3 (amended) at a concrete input (default timeout 30000). -/
theorem C3_amended_witness :
    (execute envWaitTO argsOk []).2.2 = createErrorResponse (downloadTimeoutMsg 30000) :=
  (C3_amended_timeout_message envWaitTO argsOk [] (.str "#download-button")
    rfl rfl rfl rfl rfl rfl).1

/-! ### Registry lemmas -/

lemma mapGet_mapSet (m : Registry) (k : String) (v : DownloadInfo) :
    mapGet (mapSet m k v) k = some v := by
  simp [mapGet, mapSet, List.find?]

lemma tryBody_spec (env : Env) (T : Nat) (dir nm : String) (t : TriggerVal) (dl : Registry) :
    ((tryBody env T dir nm t dl).2.1 = dl ∧ (tryBody env T dir nm t dl).2.2.isError = true)
    ∨ (∃ info, (tryBody env T dir nm t dl).2.1 = mapSet dl nm info ∧ info.name = nm
        ∧ (tryBody env T dir nm t dl).2.2.isError = false
        ∧ Event.saveAs info.savePath ∈ (tryBody env T dir nm t dl).1) := by
  unfold tryBody
  cases hE : executeTrigger env t with
  | mk evs res =>
    cases res with
    | error m => exact Or.inl ⟨rfl, catchResponse_isError T m⟩
    | ok u =>
      cases hW : env.waitResult with
      | error m => exact Or.inl ⟨rfl, catchResponse_isError T m⟩
      | ok download =>
        cases hS : env.saveResult with
        | error m => exact Or.inl ⟨rfl, catchResponse_isError T m⟩
        | ok u2 =>
          cases hSt : env.statResult with
          | ok sz => exact Or.inr ⟨_, rfl, rfl, rfl, by simp⟩
          | error m => exact Or.inr ⟨_, rfl, rfl, rfl, by simp⟩

/-- C4: every invocation either fully records the download (success
response, record present in the registry under the requested name, a save
of the recorded path performed) or returns an error response with the
registry left unchanged; the component is total (it always returns a
response, never raises). -/
theorem C4_all_or_nothing (env : Env) (args : Args) (dl : Registry) :
    ((execute env args dl).2.2.isError = true → (execute env args dl).2.1 = dl)
    ∧ ((execute env args dl).2.2.isError = false →
        ∃ n info, args.name = some n
          ∧ mapGet (execute env args dl).2.1 n = some info
          ∧ info.name = n
          ∧ Event.saveAs info.savePath ∈ (execute env args dl).1) := by
  cases hp : env.hasPage with
  | false => simp [execute, hp, createErrorResponse]
  | true =>
    cases hn : truthyStr args.name with
    | false => simp [execute, executeInner, hp, hn, createErrorResponse]
    | true =>
      cases ht : truthyTrigger args.trigger with
      | false => simp [execute, executeInner, hp, hn, ht, createErrorResponse]
      | true =>
        obtain ⟨n, hsome⟩ : ∃ n, args.name = some n := by
          cases hname : args.name with
          | none => rw [hname] at hn; simp [truthyStr] at hn
          | some s => exact ⟨s, rfl⟩
        have hred : execute env args dl =
            ((if env.dirExists then [] else [Event.mkdir (effDir env args.downloadsDir)]) ++
              Event.waitRegistered (effTimeout args.timeout) ::
                (tryBody env (effTimeout args.timeout) (effDir env args.downloadsDir)
                  (args.name.getD "") (args.trigger.getD (.num 0)) dl).1,
             (tryBody env (effTimeout args.timeout) (effDir env args.downloadsDir)
                  (args.name.getD "") (args.trigger.getD (.num 0)) dl).2.1,
             (tryBody env (effTimeout args.timeout) (effDir env args.downloadsDir)
                  (args.name.getD "") (args.trigger.getD (.num 0)) dl).2.2) := by
          simp [execute, executeInner, hp, hn, ht]
        rcases tryBody_spec env (effTimeout args.timeout) (effDir env args.downloadsDir)
            (args.name.getD "") (args.trigger.getD (.num 0)) dl with
          ⟨hreg, herr⟩ | ⟨info, hreg, hname, hok, hmem⟩
        · constructor
          · intro _; rw [hred]; exact hreg
          · intro hfalse; rw [hred] at hfalse; simp only at hfalse
            rw [herr] at hfalse; exact absurd hfalse (by decide)
        · constructor
          · intro htrue; rw [hred] at htrue; simp only at htrue
            rw [hok] at htrue; exact absurd htrue (by decide)
          · intro _
            refine ⟨n, info, hsome, ?_, ?_, ?_⟩
            · rw [hred]; simp only
              rw [hreg, hsome]; simpa [hsome] using mapGet_mapSet dl (args.name.getD "") info
            · rw [hname, hsome]; rfl
            · rw [hred]; simp only
              exact List.mem_append_right _ (List.mem_cons_of_mem _ hmem)

/-- Witness for C4 at a concrete successful input. -/
theorem C4_witness :
    ∃ n info, argsOk.name = some n
      ∧ mapGet (execute envOk argsOk []).2.1 n = some info
      ∧ info.name = n
      ∧ Event.saveAs info.savePath ∈ (execute envOk argsOk []).1 :=
  (C4_all_or_nothing envOk argsOk []).2 (by decide)

/-! ### Filename-uniqueness lemmas -/

lemma sanitizeChar_digit {c : Char} (h : c.isDigit = true) : sanitizeChar c = c := by
  unfold sanitizeChar
  split
  · next hor => rcases hor with h1 | h1 <;> subst h1 <;> exact absurd h (by decide)
  · rfl

lemma matchesClass_inj (cl : CharClass) (a b : Char)
    (ha : matchesClass cl a = true) (hb : matchesClass cl b = true)
    (hs : sanitizeChar a = sanitizeChar b) : a = b := by
  cases cl with
  | digit =>
    simp only [matchesClass] at ha hb
    rwa [sanitizeChar_digit ha, sanitizeChar_digit hb] at hs
  | lit c =>
    simp only [matchesClass, beq_iff_eq] at ha hb
    rw [ha, hb]

lemma matchesShape_length : ∀ (sh : List CharClass) (l : List Char),
    matchesShape sh l = true → l.length = sh.length := by
  intro sh
  induction sh with
  | nil =>
    intro l h
    cases l with
    | nil => rfl
    | cons a as => simp [matchesShape] at h
  | cons cl cls ih =>
    intro l h
    cases l with
    | nil => simp [matchesShape] at h
    | cons a as =>
      simp only [matchesShape, Bool.and_eq_true] at h
      simp [ih as h.2]

lemma map_sanitize_inj : ∀ (sh : List CharClass) (l1 l2 : List Char),
    matchesShape sh l1 = true → matchesShape sh l2 = true →
    l1.map sanitizeChar = l2.map sanitizeChar → l1 = l2 := by
  intro sh
  induction sh with
  | nil =>
    intro l1 l2 h1 h2 _
    cases l1 with
    | nil => cases l2 with
      | nil => rfl
      | cons b bs => simp [matchesShape] at h2
    | cons a as => simp [matchesShape] at h1
  | cons cl cls ih =>
    intro l1 l2 h1 h2 hm
    cases l1 with
    | nil => simp [matchesShape] at h1
    | cons a as =>
      cases l2 with
      | nil => simp [matchesShape] at h2
      | cons b bs =>
        simp only [matchesShape, Bool.and_eq_true] at h1 h2
        simp only [List.map_cons, List.cons.injEq] at hm
        rw [matchesClass_inj cl a b h1.1 h2.1 hm.1, ih as bs h1.2 h2.2 hm.2]

lemma sanitizeTs_inj_iso (t1 t2 : String)
    (h1 : IsIsoTimestamp t1 = true) (h2 : IsIsoTimestamp t2 = true)
    (he : sanitizeTs t1 = sanitizeTs t2) : t1 = t2 := by
  have hm : t1.data.map sanitizeChar = t2.data.map sanitizeChar := congrArg String.data he
  exact String.ext (map_sanitize_inj isoShape t1.data t2.data
    (by simpa [IsIsoTimestamp] using h1) (by simpa [IsIsoTimestamp] using h2) hm)

lemma mkFilename_inj (n t1 t2 s1 s2 : String)
    (h1 : IsIsoTimestamp t1 = true) (h2 : IsIsoTimestamp t2 = true) (hne : t1 ≠ t2) :
    mkFilename n (sanitizeTs t1) s1 ≠ mkFilename n (sanitizeTs t2) s2 := by
  intro heq
  apply hne
  apply sanitizeTs_inj_iso t1 t2 h1 h2
  have hd := congrArg String.data heq
  unfold mkFilename at hd
  repeat rw [String.data_append] at hd
  have hd2 := List.append_cancel_left hd
  have hd3 := List.append_cancel_left hd2
  have hlen : (sanitizeTs t1).data.length = (sanitizeTs t2).data.length := by
    have l1 := matchesShape_length isoShape t1.data (by simpa [IsIsoTimestamp] using h1)
    have l2 := matchesShape_length isoShape t2.data (by simpa [IsIsoTimestamp] using h2)
    simp [sanitizeTs, l1, l2]
  exact String.ext (List.append_inj hd3 hlen).1

/-- C5: every successful download is saved under
`<name>-<timestamp>-<suggestedFilename>` inside the effective downloads
directory, where `<timestamp>` is the capture time with every colon and
period replaced and `<suggestedFilename>` falls back to `downloaded-file`
when the browser provides none; two downloads with the same name at
different (well-formed ISO) timestamps get distinct filenames. -/
theorem C5_unique_filename (env : Env) (args : Args) (dl : Registry) (t : TriggerVal)
    (handle : DownloadHandle) (n : String)
    (hp : env.hasPage = true) (hn : args.name = some n) (hnn : truthyStr args.name = true)
    (htr : args.trigger = some t) (ht : truthyTrigger args.trigger = true)
    (hdisp : (executeTrigger env t).2 = Except.ok ())
    (hwait : env.waitResult = Except.ok handle) :
    Event.saveAs (pathJoin (effDir env args.downloadsDir)
        (mkFilename n (sanitizeTs env.now1)
          (if handle.suggestedFilename == "" then "downloaded-file" else handle.suggestedFilename)))
      ∈ (execute env args dl).1
    ∧ ∀ t1 t2 s1 s2, IsIsoTimestamp t1 = true → IsIsoTimestamp t2 = true → t1 ≠ t2 →
        mkFilename n (sanitizeTs t1) s1 ≠ mkFilename n (sanitizeTs t2) s2 := by
  constructor
  · have htr' : args.trigger.getD (.num 0) = t := by simp [htr]
    have hn' : args.name.getD "" = n := by simp [hn]
    cases hE : executeTrigger env t with
    | mk evs res =>
      rw [hE] at hdisp; simp only at hdisp; subst hdisp
      cases hS : env.saveResult with
      | error m =>
        simp [execute, executeInner, hp, hnn, ht, htr', hn', tryBody, hE, hwait, hS]
      | ok u =>
        cases hSt : env.statResult with
        | ok sz =>
          simp [execute, executeInner, hp, hnn, ht, htr', hn', tryBody, hE, hwait, hS, hSt]
        | error m =>
          simp [execute, executeInner, hp, hnn, ht, htr', hn', tryBody, hE, hwait, hS, hSt]
  · intro t1 t2 s1 s2 h1 h2 hne
    exact mkFilename_inj n t1 t2 s1 s2 h1 h2 hne

/-- Witness for C5 at a concrete input (the save event for the constructed
filename is in the trace). -/
theorem C5_witness :
    Event.saveAs (pathJoin (effDir envOk argsOk.downloadsDir)
        (mkFilename "test-download" (sanitizeTs envOk.now1) "test-file.pdf"))
      ∈ (execute envOk argsOk []).1 := by
  have h := (C5_unique_filename envOk argsOk [] (.str "#download-button")
    ⟨"test-file.pdf", "https://example.com/file.pdf"⟩ "test-download"
    rfl rfl rfl rfl rfl rfl rfl).1
  exact h

/-- C6: after a successful `execute` with name `n`, `getDownload n` returns
a record whose `name` is `n` and whose `originalFilename` and `url` match
the browser-provided suggested filename and source URL, and the record
appears in `getDownloads()` under key `n`. -/
theorem C6_registry_record (env : Env) (args : Args) (dl : Registry) (t : TriggerVal)
    (handle : DownloadHandle) (n : String)
    (hp : env.hasPage = true) (hn : args.name = some n) (hnn : truthyStr args.name = true)
    (htr : args.trigger = some t) (ht : truthyTrigger args.trigger = true)
    (hdisp : (executeTrigger env t).2 = Except.ok ())
    (hwait : env.waitResult = Except.ok handle)
    (hsave : env.saveResult = Except.ok ())
    (hsugg : (handle.suggestedFilename == "") = false) :
    (execute env args dl).2.2.isError = false
    ∧ ∃ info, getDownload (execute env args dl).2.1 n = some info
        ∧ info.name = n
        ∧ info.originalFilename = handle.suggestedFilename
        ∧ info.url = some handle.url
        ∧ (n, info) ∈ getDownloads (execute env args dl).2.1 := by
  have htr' : args.trigger.getD (.num 0) = t := by simp [htr]
  have hn' : args.name.getD "" = n := by simp [hn]
  cases hE : executeTrigger env t with
  | mk evs res =>
    rw [hE] at hdisp; simp only at hdisp; subst hdisp
    cases hSt : env.statResult with
    | ok sz =>
      have hreg : (execute env args dl).2.1 = mapSet dl n
          { name := n, originalFilename := handle.suggestedFilename,
            savePath := pathJoin (effDir env args.downloadsDir)
              (mkFilename n (sanitizeTs env.now1) handle.suggestedFilename),
            timestamp := env.now2, size := some sz, url := some handle.url } := by
        simp [execute, executeInner, hp, hnn, ht, htr', hn', tryBody, hE, hwait, hsave, hSt, hsugg]
      refine ⟨?_, ?_⟩
      · simp [execute, executeInner, hp, hnn, ht, htr', hn', tryBody, hE, hwait, hsave, hSt,
          createSuccessResponse]
      · exact ⟨_, by rw [getDownload, hreg]; exact mapGet_mapSet dl n _, rfl, rfl, rfl,
          by rw [getDownloads, hreg]; exact List.mem_cons_self _ _⟩
    | error m =>
      have hreg : (execute env args dl).2.1 = mapSet dl n
          { name := n, originalFilename := handle.suggestedFilename,
            savePath := pathJoin (effDir env args.downloadsDir)
              (mkFilename n (sanitizeTs env.now1) handle.suggestedFilename),
            timestamp := env.now2, size := none, url := some handle.url } := by
        simp [execute, executeInner, hp, hnn, ht, htr', hn', tryBody, hE, hwait, hsave, hSt, hsugg]
      refine ⟨?_, ?_⟩
      · simp [execute, executeInner, hp, hnn, ht, htr', hn', tryBody, hE, hwait, hsave, hSt,
          createSuccessResponse]
      · exact ⟨_, by rw [getDownload, hreg]; exact mapGet_mapSet dl n _, rfl, rfl, rfl,
          by rw [getDownloads, hreg]; exact List.mem_cons_self _ _⟩

/-- Witness for C6 at a concrete successful input. -/
theorem C6_witness :
    (execute envOk argsOk []).2.2.isError = false
    ∧ ∃ info, getDownload (execute envOk argsOk []).2.1 "test-download" = some info
        ∧ info.name = "test-download"
        ∧ info.originalFilename = "test-file.pdf"
        ∧ info.url = some "https://example.com/file.pdf"
        ∧ ("test-download", info) ∈ getDownloads (execute envOk argsOk []).2.1 :=
  C6_registry_record envOk argsOk [] (.str "#download-button")
    ⟨"test-file.pdf", "https://example.com/file.pdf"⟩ "test-download"
    rfl rfl rfl rfl rfl rfl rfl rfl rfl

/-- C8: `formatBytes` renders 1024 bytes as `1 KB` (whole-number form),
0 bytes as `0 Bytes`, with 1024-based units and at most two decimals
(e.g. 1536 → `1.5 KB`, 1048576 → `1 MB`); when the stat call fails the
operation still succeeds, the record omits `size`, and the success message
carries exactly the four size-free entries. -/
theorem C8_size_formatting (env : Env) (args : Args) (dl : Registry) (t : TriggerVal)
    (handle : DownloadHandle) (n m : String)
    (hp : env.hasPage = true) (hn : args.name = some n) (hnn : truthyStr args.name = true)
    (htr : args.trigger = some t) (ht : truthyTrigger args.trigger = true)
    (hdisp : (executeTrigger env t).2 = Except.ok ())
    (hwait : env.waitResult = Except.ok handle)
    (hsave : env.saveResult = Except.ok ())
    (hstat : env.statResult = Except.error m)
    (hsugg : (handle.suggestedFilename == "") = false) :
    formatBytes 1024 = "1 KB"
    ∧ formatBytes 0 = "0 Bytes"
    ∧ formatBytes 1536 = "1.5 KB"
    ∧ formatBytes (1024 * 1024) = "1 MB"
    ∧ (execute env args dl).2.2.isError = false
    ∧ (∃ info, getDownload (execute env args dl).2.1 n = some info ∧ info.size = none)
    ∧ (execute env args dl).2.2.content =
        [ "Download completed successfully",
          "File saved to: " ++ pathRelative env.cwd (pathJoin (effDir env args.downloadsDir)
            (mkFilename n (sanitizeTs env.now1) handle.suggestedFilename)),
          "Original filename: " ++ handle.suggestedFilename,
          "Download stored in memory with name: " ++ (sq ++ n ++ sq) ] := by
  have htr' : args.trigger.getD (.num 0) = t := by simp [htr]
  have hn' : args.name.getD "" = n := by simp [hn]
  refine ⟨by decide, by decide, by decide, by decide, ?_, ?_, ?_⟩ <;>
  cases hE : executeTrigger env t with
  | mk evs res =>
    rw [hE] at hdisp; simp only at hdisp; subst hdisp
    first
    | (exact ⟨_, by
        rw [getDownload, show (execute env args dl).2.1 = mapSet dl n
            { name := n, originalFilename := handle.suggestedFilename,
              savePath := pathJoin (effDir env args.downloadsDir)
                (mkFilename n (sanitizeTs env.now1) handle.suggestedFilename),
              timestamp := env.now2, size := none, url := some handle.url } from by
          simp [execute, executeInner, hp, hnn, ht, htr', hn', tryBody, hE, hwait, hsave, hstat, hsugg]]
        exact mapGet_mapSet dl n _, rfl⟩)
    | simp [execute, executeInner, hp, hnn, ht, htr', hn', tryBody, hE, hwait, hsave, hstat,
        hsugg, createSuccessResponse]

/-- Witness for C8 at a concrete input with a failing stat call. -/
theorem C8_witness :
    (execute envStatFail argsOk []).2.2.isError = false
    ∧ (∃ info, getDownload (execute envStatFail argsOk []).2.1 "test-download" = some info
        ∧ info.size = none)
    ∧ (execute envStatFail argsOk []).2.2.content.length = 4 := by
  have h := C8_size_formatting envStatFail argsOk [] (.str "#download-button")
    ⟨"test-file.pdf", "https://example.com/file.pdf"⟩ "test-download" "File not found"
    rfl rfl rfl rfl rfl rfl rfl rfl rfl rfl
  exact ⟨h.2.2.2.2.1, h.2.2.2.2.2.1, by rw [h.2.2.2.2.2.2]; rfl⟩

/-- C10 (implicit): for a successful download of a zero-byte file, the
stored record field `size` equals 0, yet the success response carries exactly
the four size-free entries — the size line is emitted only for a present,
non-zero recorded size. -/
theorem C10_zero_size_line (env : Env) (args : Args) (dl : Registry) (t : TriggerVal)
    (handle : DownloadHandle) (n : String)
    (hp : env.hasPage = true) (hn : args.name = some n) (hnn : truthyStr args.name = true)
    (htr : args.trigger = some t) (ht : truthyTrigger args.trigger = true)
    (hdisp : (executeTrigger env t).2 = Except.ok ())
    (hwait : env.waitResult = Except.ok handle)
    (hsave : env.saveResult = Except.ok ())
    (hstat : env.statResult = Except.ok 0)
    (hsugg : (handle.suggestedFilename == "") = false) :
    (execute env args dl).2.2.isError = false
    ∧ (∃ info, getDownload (execute env args dl).2.1 n = some info ∧ info.size = some 0)
    ∧ (execute env args dl).2.2.content =
        [ "Download completed successfully",
          "File saved to: " ++ pathRelative env.cwd (pathJoin (effDir env args.downloadsDir)
            (mkFilename n (sanitizeTs env.now1) handle.suggestedFilename)),
          "Original filename: " ++ handle.suggestedFilename,
          "Download stored in memory with name: " ++ (sq ++ n ++ sq) ] := by
  have htr' : args.trigger.getD (.num 0) = t := by simp [htr]
  have hn' : args.name.getD "" = n := by simp [hn]
  refine ⟨?_, ?_, ?_⟩ <;>
  cases hE : executeTrigger env t with
  | mk evs res =>
    rw [hE] at hdisp; simp only at hdisp; subst hdisp
    first
    | (exact ⟨_, by
        rw [getDownload, show (execute env args dl).2.1 = mapSet dl n
            { name := n, originalFilename := handle.suggestedFilename,
              savePath := pathJoin (effDir env args.downloadsDir)
                (mkFilename n (sanitizeTs env.now1) handle.suggestedFilename),
              timestamp := env.now2, size := some 0, url := some handle.url } from by
          simp [execute, executeInner, hp, hnn, ht, htr', hn', tryBody, hE, hwait, hsave, hstat, hsugg]]
        exact mapGet_mapSet dl n _, rfl⟩)
    | simp [execute, executeInner, hp, hnn, ht, htr', hn', tryBody, hE, hwait, hsave, hstat,
        hsugg, createSuccessResponse]

/-- Witness for C10 at a concrete input with a zero-byte stat result. -/
theorem C10_witness :
    (execute envZeroSize argsOk []).2.2.isError = false
    ∧ (∃ info, getDownload (execute envZeroSize argsOk []).2.1 "test-download" = some info
        ∧ info.size = some 0)
    ∧ (execute envZeroSize argsOk []).2.2.content.length = 4 := by
  have h := C10_zero_size_line envZeroSize argsOk [] (.str "#download-button")
    ⟨"test-file.pdf", "https://example.com/file.pdf"⟩ "test-download"
    rfl rfl rfl rfl rfl rfl rfl rfl rfl rfl
  exact ⟨h.1, h.2.1, by rw [h.2.2]; rfl⟩

end DownloadTool
